import Mathlib

/- Shallow embedding of the two Go template-method demo programs of the
   repository golang-oop-primitives:
   program 1 is go-oop-template-method.go, the explicit-argument variant,
   where the composite method draw takes the Shape interface value as its
   argument; program 2 is the embedded-interface variant, where every object
   stores a self-referential Shape interface value inside an embedded
   ShapeAbstract struct, assigned by the constructors.
   Console output is modelled as the list of the string tokens printed by
   fmt.Print; a line of the driver output is the concatenation of the tokens
   of one draw call followed by a newline from fmt.Println.
   Dereferencing a nil pointer and calling a method on a nil interface value
   are runtime faults; in program 1 they are modelled by the Option monad
   (none is a fault), in program 2 by the Res.nilFault result. -/

/-! Program 1 (go-oop-template-method.go).
    A Go pointer to a struct is modelled as an Option of the struct value
    (none is the nil pointer); this is adequate because program 1 never
    mutates through a pointer.  Each method keeps the receiver of the Go
    source; a receiver the Go body never dereferences is simply unused. -/

structure ShapeBase1 where
  deriving DecidableEq

structure Circle1 where
  shapeBase : Option ShapeBase1
  deriving DecidableEq

structure RedRectangle1 where
  shapeBase : Option ShapeBase1
  deriving DecidableEq

structure BlueCircleWithText1 where
  circle : Option Circle1
  deriving DecidableEq

/-- A Go interface value of type Shape in program 1: the dynamic concrete
type together with the pointer it holds.  Only the four concrete types of
the program implement Shape. -/
inductive Shape1 where
  | base : Option ShapeBase1 → Shape1
  | circle : Option Circle1 → Shape1
  | redRect : Option RedRectangle1 → Shape1
  | bct : Option BlueCircleWithText1 → Shape1
  deriving DecidableEq

/-- func (sb *ShapeBase) drawBoundary() — prints "draw nothing"; the
receiver is never dereferenced, so a nil receiver is fine. -/
def ShapeBase1.drawBoundary (_sb : Option ShapeBase1) : Option (List String) :=
  some ["draw nothing"]

/-- func (sb *ShapeBase) fillColor() — prints "fill nothing". -/
def ShapeBase1.fillColor (_sb : Option ShapeBase1) : Option (List String) :=
  some ["fill nothing"]

/-- func (c *Circle) drawBoundary() — prints "Circle". -/
def Circle1.drawBoundary (_c : Option Circle1) : Option (List String) :=
  some ["Circle"]

/-- func (rt *RedRectangle) drawBoundary() — prints "Rectangle". -/
def RedRectangle1.drawBoundary (_rt : Option RedRectangle1) : Option (List String) :=
  some ["Rectangle"]

/-- func (rt *RedRectangle) fillColor() — prints "Red". -/
def RedRectangle1.fillColor (_rt : Option RedRectangle1) : Option (List String) :=
  some ["Red"]

/-- func (bct *BlueCircleWithText) fillColor() — prints "Blue". -/
def BlueCircleWithText1.fillColor (_bct : Option BlueCircleWithText1) : Option (List String) :=
  some ["Blue"]

/-- Interface dispatch of drawBoundary in program 1, following the Go method
set of each dynamic type: ShapeBase, Circle and RedRectangle have their own
drawBoundary; BlueCircleWithText promotes the drawBoundary of the embedded
*Circle, whose compiled wrapper loads the Circle field (dereferencing the
BlueCircleWithText pointer) and passes it as the unused receiver. -/
def Shape1.drawBoundary : Shape1 → Option (List String)
  | Shape1.base p => ShapeBase1.drawBoundary p
  | Shape1.circle p => Circle1.drawBoundary p
  | Shape1.redRect p => RedRectangle1.drawBoundary p
  | Shape1.bct p => do
      let v ← p
      Circle1.drawBoundary v.circle

/-- Interface dispatch of fillColor in program 1: Circle promotes the
fillColor of the embedded *ShapeBase (its wrapper loads the ShapeBase field,
dereferencing the Circle pointer); BlueCircleWithText and RedRectangle have
their own overrides. -/
def Shape1.fillColor : Shape1 → Option (List String)
  | Shape1.base p => ShapeBase1.fillColor p
  | Shape1.circle p => do
      let v ← p
      ShapeBase1.fillColor v.shapeBase
  | Shape1.redRect p => RedRectangle1.fillColor p
  | Shape1.bct p => BlueCircleWithText1.fillColor p

/-- func (_ *ShapeBase) draw(sb Shape) — the template method: it calls
drawBoundary through the interface argument, prints the separator "-", then
calls fillColor through the same interface argument.  The receiver is the
anonymous _ of the Go source and is never used. -/
def ShapeBase1.draw (_receiver : Option ShapeBase1) (sb : Shape1) : Option (List String) := do
  let a ← sb.drawBoundary
  let b ← sb.fillColor
  pure (a ++ ["-"] ++ b)

/-- func (bct *BlueCircleWithText) draw(s Shape) — calls bct.Circle.draw(s),
which resolves to the promoted ShapeBase draw with receiver
bct.Circle.ShapeBase (loading that field dereferences the Circle pointer),
then prints "-TextAnnotation". -/
def BlueCircleWithText1.draw (bct : Option BlueCircleWithText1) (s : Shape1) :
    Option (List String) := do
  let v ← bct
  let c ← v.circle
  let a ← ShapeBase1.draw c.shapeBase s
  pure (a ++ ["-TextAnnotation"])

/-- Interface dispatch of draw in program 1: ShapeBase has its own draw;
Circle and RedRectangle promote the draw of the embedded *ShapeBase (their
wrappers load the ShapeBase field); BlueCircleWithText has its own draw. -/
def Shape1.draw : Shape1 → Shape1 → Option (List String)
  | Shape1.base p, s => ShapeBase1.draw p s
  | Shape1.circle p, s => do
      let v ← p
      ShapeBase1.draw v.shapeBase s
  | Shape1.redRect p, s => do
      let v ← p
      ShapeBase1.draw v.shapeBase s
  | Shape1.bct p, s => BlueCircleWithText1.draw p s

/-- func NewCircle() — returns Circle with a fresh ShapeBase. -/
def NewCircle1 : Circle1 := { shapeBase := some {} }

/-- func NewRedRectangle() — returns RedRectangle with a fresh ShapeBase. -/
def NewRedRectangle1 : RedRectangle1 := { shapeBase := some {} }

/-- func NewBlueCircleWithText() — returns BlueCircleWithText embedding the
zero-valued Circle literal of the source, whose embedded *ShapeBase pointer
is nil. -/
def NewBlueCircleWithText1 : BlueCircleWithText1 := { circle := some { shapeBase := none } }

/-- The slice of Shape interface values built by main of program 1. -/
def shapes1 : List Shape1 :=
  [ Shape1.base (some {}),
    Shape1.circle (some NewCircle1),
    Shape1.redRect (some NewRedRectangle1),
    Shape1.bct (some NewBlueCircleWithText1) ]

/-- The standard output of main of program 1: for each shape s of the slice
it runs s.draw(s) and then fmt.Println(); none if any call faults. -/
def main1Out : Option String := do
  let ls ← shapes1.mapM (fun s => s.draw s)
  pure (String.join (ls.map (fun ts => String.join ts ++ "\n")))

example : Shape1.draw (Shape1.circle (some NewCircle1)) (Shape1.circle (some NewCircle1)) =
    some ["Circle", "-", "fill nothing"] := by decide

example : main1Out = some
    "draw nothing-fill nothing\nCircle-fill nothing\nRectangle-Red\nCircle-Blue-TextAnnotation\n" := by
  decide

/-! Program 2 (the embedded-interface variant).
    The constructors mutate through pointers (x.Shape = x) and every object
    holds a reference to itself through the embedded Shape interface value,
    so the objects are modelled on an explicit heap: a list of objects
    indexed by address.  Pointer fields are Option Nat (none is nil); a Go
    interface value is nil or a pair of the dynamic type tag and the address
    of the object.  Method bodies of program 2 contain no assignment
    statement, so method evaluation reads the heap and never changes it;
    only the constructors produce a new heap. -/

/-- The dynamic type tags of the concrete types of program 2. -/
inductive Tag2 where
  | shapeAbstract : Tag2
  | shapeBase : Tag2
  | circle : Tag2
  | redRect : Tag2
  | bct : Tag2
  deriving DecidableEq

/-- A Go interface value of type Shape in program 2: nil, or the dynamic
type tag with the heap address of the pointed-to object. -/
inductive Iface where
  | nil : Iface
  | val : Tag2 → Nat → Iface
  deriving DecidableEq

/-- A heap object of program 2.  type ShapeAbstract struct { Shape } holds
the embedded interface value; the other structs hold the embedded pointer
to their inner struct (none is the nil pointer). -/
inductive Obj where
  | shapeAbstract : Iface → Obj
  | shapeBase : Option Nat → Obj
  | circle : Option Nat → Obj
  | redRect : Option Nat → Obj
  | bct : Option Nat → Obj
  deriving DecidableEq

/-- The heap: the object at address a is the entry at index a. -/
abbrev Heap := List Obj

/-- The result of evaluating a method call of program 2: the printed
tokens on success; nilFault for a nil pointer dereference or a method call
on a nil interface value; stuck when the fuel of the evaluator runs out or
an address does not hold an object of the statically expected type (which
never happens on the heaps the constructors build). -/
inductive Res where
  | ok : List String → Res
  | nilFault : Res
  | stuck : Res
  deriving DecidableEq

instance : DecidableEq (Except Res Nat) := fun x y =>
  match x, y with
  | Except.ok a, Except.ok b =>
      if h : a = b then isTrue (congrArg Except.ok h)
      else isFalse (fun hc => h (Except.ok.inj hc))
  | Except.error a, Except.error b =>
      if h : a = b then isTrue (congrArg Except.error h)
      else isFalse (fun hc => h (Except.error.inj hc))
  | Except.ok _, Except.error _ => isFalse (fun hc => Except.noConfusion hc)
  | Except.error _, Except.ok _ => isFalse (fun hc => Except.noConfusion hc)

/-- Sequencing of two evaluation results: the outputs are concatenated when
both succeed, otherwise the first fault (in program order) is the result. -/
def Res.seq : Res → Res → Res
  | Res.ok a, Res.ok b => Res.ok (a ++ b)
  | Res.ok _, e => e
  | e, _ => e

/-- Dereference a *ShapeAbstract at the given address, yielding the stored
Shape interface value (the only field of ShapeAbstract). -/
def readSA (h : Heap) (a : Nat) : Except Res Iface :=
  match h.get? a with
  | some (Obj.shapeAbstract s) => Except.ok s
  | _ => Except.error Res.stuck

/-- Follow sb.ShapeAbstract from a *ShapeBase at address b: the address of
the embedded ShapeAbstract, or nilFault when the embedded pointer is nil. -/
def saAddrOfSB (h : Heap) (b : Nat) : Except Res Nat :=
  match h.get? b with
  | some (Obj.shapeBase (some a)) => Except.ok a
  | some (Obj.shapeBase none) => Except.error Res.nilFault
  | _ => Except.error Res.stuck

/-- Follow c.ShapeBase.ShapeAbstract from a *Circle at address c. -/
def saAddrOfCircle (h : Heap) (c : Nat) : Except Res Nat :=
  match h.get? c with
  | some (Obj.circle (some b)) => saAddrOfSB h b
  | some (Obj.circle none) => Except.error Res.nilFault
  | _ => Except.error Res.stuck

/-- Follow rr.ShapeBase.ShapeAbstract from a *RedRectangle at address r. -/
def saAddrOfRR (h : Heap) (r : Nat) : Except Res Nat :=
  match h.get? r with
  | some (Obj.redRect (some b)) => saAddrOfSB h b
  | some (Obj.redRect none) => Except.error Res.nilFault
  | _ => Except.error Res.stuck

/-- Follow bct.Circle.ShapeBase.ShapeAbstract from a *BlueCircleWithText at
address a. -/
def saAddrOfBct (h : Heap) (a : Nat) : Except Res Nat :=
  match h.get? a with
  | some (Obj.bct (some c)) => saAddrOfCircle h c
  | some (Obj.bct none) => Except.error Res.nilFault
  | _ => Except.error Res.stuck

/-- Interface dispatch of drawBoundary in program 2.  ShapeBase, Circle and
RedRectangle reach their own method, whose body never touches the receiver;
BlueCircleWithText promotes the drawBoundary of the embedded *Circle (its
wrapper loads the Circle field, so it dereferences the object pointer);
ShapeAbstract promotes the drawBoundary of the embedded Shape interface
value, a further dynamic dispatch, which faults when that value is nil. -/
def ifaceDrawBoundary : Nat → Heap → Iface → Res
  | _, _, Iface.nil => Res.nilFault
  | _, _, Iface.val Tag2.shapeBase _ => Res.ok ["draw nothing"]
  | _, _, Iface.val Tag2.circle _ => Res.ok ["Circle"]
  | _, _, Iface.val Tag2.redRect _ => Res.ok ["Rectangle"]
  | _, h, Iface.val Tag2.bct a =>
      match h.get? a with
      | some (Obj.bct _) => Res.ok ["Circle"]
      | _ => Res.stuck
  | fuel + 1, h, Iface.val Tag2.shapeAbstract a =>
      match readSA h a with
      | Except.ok s => ifaceDrawBoundary fuel h s
      | Except.error e => e
  | 0, _, Iface.val Tag2.shapeAbstract _ => Res.stuck

/-- Interface dispatch of fillColor in program 2.  Circle promotes the
fillColor of the embedded *ShapeBase (its wrapper loads the ShapeBase
field, dereferencing the Circle pointer); RedRectangle and
BlueCircleWithText have their own overrides; ShapeAbstract dispatches
through the stored Shape interface value. -/
def ifaceFillColor : Nat → Heap → Iface → Res
  | _, _, Iface.nil => Res.nilFault
  | _, _, Iface.val Tag2.shapeBase _ => Res.ok ["fill nothing"]
  | _, h, Iface.val Tag2.circle a =>
      match h.get? a with
      | some (Obj.circle _) => Res.ok ["fill nothing"]
      | _ => Res.stuck
  | _, _, Iface.val Tag2.redRect _ => Res.ok ["Red"]
  | _, _, Iface.val Tag2.bct _ => Res.ok ["Blue"]
  | fuel + 1, h, Iface.val Tag2.shapeAbstract a =>
      match readSA h a with
      | Except.ok s => ifaceFillColor fuel h s
      | Except.error e => e
  | 0, _, Iface.val Tag2.shapeAbstract _ => Res.stuck

/-- func (sa ShapeAbstract) draw() — the template method, with the value
receiver of the source; its only field is the stored Shape interface value.
It calls drawBoundary through the stored interface value, prints "-", then
calls fillColor through the same interface value. -/
def shapeAbstractDraw (fuel : Nat) (h : Heap) (shape : Iface) : Res :=
  ((ifaceDrawBoundary fuel h shape).seq (Res.ok ["-"])).seq (ifaceFillColor fuel h shape)

/-- Interface dispatch of draw in program 2.  ShapeAbstract has its own
draw (shadowing the one of the embedded interface value); ShapeBase,
Circle and RedRectangle promote it, dereferencing the embedded pointer
chain down to the ShapeAbstract value; BlueCircleWithText has its own
draw, which calls bct.Circle.draw() — the promoted ShapeAbstract draw on
the chain bct.Circle.ShapeBase.ShapeAbstract — then prints
"-TextAnnotation". -/
def ifaceDraw (fuel : Nat) (h : Heap) : Iface → Res
  | Iface.nil => Res.nilFault
  | Iface.val Tag2.shapeAbstract a =>
      match readSA h a with
      | Except.ok s => shapeAbstractDraw fuel h s
      | Except.error e => e
  | Iface.val Tag2.shapeBase b =>
      match (saAddrOfSB h b).bind (readSA h) with
      | Except.ok s => shapeAbstractDraw fuel h s
      | Except.error e => e
  | Iface.val Tag2.circle c =>
      match (saAddrOfCircle h c).bind (readSA h) with
      | Except.ok s => shapeAbstractDraw fuel h s
      | Except.error e => e
  | Iface.val Tag2.redRect r =>
      match (saAddrOfRR h r).bind (readSA h) with
      | Except.ok s => shapeAbstractDraw fuel h s
      | Except.error e => e
  | Iface.val Tag2.bct a =>
      match h.get? a with
      | some (Obj.bct (some c)) =>
          match (saAddrOfCircle h c).bind (readSA h) with
          | Except.ok s => (shapeAbstractDraw fuel h s).seq (Res.ok ["-TextAnnotation"])
          | Except.error e => e
      | some (Obj.bct none) => Res.nilFault
      | _ => Res.stuck

/-- Write the Shape interface value reached by the promoted field chain:
x.Shape = v.  The error case is a nil dereference panic in Go; it never
arises for the chains the constructors build. -/
def setShapeAt (h : Heap) (r : Except Res Nat) (v : Iface) : Heap :=
  match r with
  | Except.ok a => h.set a (Obj.shapeAbstract v)
  | Except.error _ => h

/-- func NewShapeBase() — allocates ShapeBase{&ShapeAbstract{}} and then
assigns sb.Shape = sb; returns the new heap and the address of the
ShapeBase. -/
def NewShapeBase2 (h : Heap) : Heap × Nat :=
  let aSA := h.length
  let h1 := h ++ [Obj.shapeAbstract Iface.nil]
  let aSB := h1.length
  let h2 := h1 ++ [Obj.shapeBase (some aSA)]
  (setShapeAt h2 (saAddrOfSB h2 aSB) (Iface.val Tag2.shapeBase aSB), aSB)

/-- func NewCircle() — allocates Circle{NewShapeBase()} and then assigns
c.Shape = c (overwriting the assignment NewShapeBase made). -/
def NewCircle2 (h : Heap) : Heap × Nat :=
  let p := NewShapeBase2 h
  let aC := p.1.length
  let h2 := p.1 ++ [Obj.circle (some p.2)]
  (setShapeAt h2 (saAddrOfCircle h2 aC) (Iface.val Tag2.circle aC), aC)

/-- func NewRedRectangle() — allocates RedRectangle{NewShapeBase()} and
then assigns rr.Shape = rr. -/
def NewRedRectangle2 (h : Heap) : Heap × Nat :=
  let p := NewShapeBase2 h
  let aR := p.1.length
  let h2 := p.1 ++ [Obj.redRect (some p.2)]
  (setShapeAt h2 (saAddrOfRR h2 aR) (Iface.val Tag2.redRect aR), aR)

/-- func NewBlueCircleWithText() — allocates BlueCircleWithText{NewCircle()}
and then assigns bct.Shape = bct (overwriting the assignment NewCircle
made). -/
def NewBlueCircleWithText2 (h : Heap) : Heap × Nat :=
  let p := NewCircle2 h
  let aB := p.1.length
  let h2 := p.1 ++ [Obj.bct (some p.2)]
  (setShapeAt h2 (saAddrOfBct h2 aB) (Iface.val Tag2.bct aB), aB)

/-- Fuel ample for every dispatch of the demo (the stored interface values
of the constructed heaps never hold a ShapeAbstract tag, so the recursion
depth is at most one). -/
def fuel2 : Nat := 100

/-- The heap after main of program 2 ran the four constructors in order. -/
def mainHeap2 : Heap :=
  (NewBlueCircleWithText2 (NewRedRectangle2 (NewCircle2 (NewShapeBase2 []).1).1).1).1

/-- The four Shape interface values of the slice built by main of
program 2, over mainHeap2 (addresses 1, 4, 7 and 11). -/
def shapes2 : List Iface :=
  [ Iface.val Tag2.shapeBase (NewShapeBase2 []).2,
    Iface.val Tag2.circle (NewCircle2 (NewShapeBase2 []).1).2,
    Iface.val Tag2.redRect (NewRedRectangle2 (NewCircle2 (NewShapeBase2 []).1).1).2,
    Iface.val Tag2.bct (NewBlueCircleWithText2
      (NewRedRectangle2 (NewCircle2 (NewShapeBase2 []).1).1).1).2 ]

/-- The standard output of main of program 2: for each shape s of the slice
it runs s.draw() and then fmt.Println(); none if any call faults. -/
def main2Out : Option String := do
  let ls ← shapes2.mapM (fun s =>
    match ifaceDraw fuel2 mainHeap2 s with
    | Res.ok ts => some ts
    | _ => none)
  pure (String.join (ls.map (fun ts => String.join ts ++ "\n")))

/-- View of an evaluation result as the optional token list, for comparing
the two programs. -/
def resTokens : Res → Option (List String)
  | Res.ok ts => some ts
  | _ => none

example : ifaceDraw fuel2 mainHeap2 (Iface.val Tag2.shapeBase 1) =
    Res.ok ["draw nothing", "-", "fill nothing"] := by decide

example : ifaceDraw fuel2 mainHeap2 (Iface.val Tag2.bct 11) =
    Res.ok ["Circle", "-", "Blue", "-TextAnnotation"] := by decide

example : main2Out = main1Out := by decide

/-! Theorems about the claims. -/

/-- C1: both demo drivers write exactly the four lines
draw nothing-fill nothing, Circle-fill nothing, Rectangle-Red and
Circle-Blue-TextAnnotation, in that order, each terminated by a newline,
and nothing else. -/
theorem c1_driver_output :
    main1Out = some ("draw nothing-fill nothing\n" ++ "Circle-fill nothing\n" ++
      "Rectangle-Red\n" ++ "Circle-Blue-TextAnnotation\n") ∧
    main2Out = some ("draw nothing-fill nothing\n" ++ "Circle-fill nothing\n" ++
      "Rectangle-Red\n" ++ "Circle-Blue-TextAnnotation\n") := by
  constructor
  · decide
  · decide

/-- C2: the base composite draw of both programs performs exactly three
steps in order — drawBoundary through the interface value, the separator
"-", fillColor through the same interface value — independently of the
receiver, and the dynamic override is reached (for the RedRectangle
instance the composite emits Rectangle and Red, not the base defaults). -/
theorem c2_template_three_steps :
    (∀ p q : Option ShapeBase1, ∀ s : Shape1, ShapeBase1.draw p s = ShapeBase1.draw q s) ∧
    (∀ p : Option ShapeBase1, ∀ s : Shape1,
      ShapeBase1.draw p s =
        (Shape1.drawBoundary s).bind fun a =>
          (Shape1.fillColor s).bind fun b => some (a ++ ["-"] ++ b)) ∧
    (∀ fuel : Nat, ∀ h : Heap, ∀ s : Iface,
      shapeAbstractDraw fuel h s =
        ((ifaceDrawBoundary fuel h s).seq (Res.ok ["-"])).seq (ifaceFillColor fuel h s)) ∧
    Shape1.draw (Shape1.redRect (some NewRedRectangle1))
      (Shape1.redRect (some NewRedRectangle1)) = some ["Rectangle", "-", "Red"] ∧
    ifaceDraw fuel2 mainHeap2 (Iface.val Tag2.redRect 7) = Res.ok ["Rectangle", "-", "Red"] := by
  refine ⟨fun p q s => rfl, fun p s => rfl, fun fuel h s => rfl, by decide, by decide⟩

/-- C3: in the embedded-interface variant, an instance whose embedded Shape
self-reference was never assigned faults on the composite draw and on every
operation dispatched through the unset self-reference, with a nil-dispatch
fault, instead of producing the base-default output. -/
theorem c3_unwired_nil_fault (fuel : Nat) (h : Heap) (a b : Nat)
    (ha : h.get? a = some (Obj.shapeAbstract Iface.nil))
    (hb : h.get? b = some (Obj.shapeBase (some a))) :
    ifaceDraw fuel h (Iface.val Tag2.shapeBase b) = Res.nilFault ∧
    ifaceDraw fuel h (Iface.val Tag2.shapeAbstract a) = Res.nilFault ∧
    ifaceDrawBoundary (fuel + 1) h (Iface.val Tag2.shapeAbstract a) = Res.nilFault ∧
    ifaceFillColor (fuel + 1) h (Iface.val Tag2.shapeAbstract a) = Res.nilFault ∧
    Res.nilFault ≠ Res.ok ["draw nothing", "-", "fill nothing"] := by
  simp only [List.get?_eq_getElem?] at ha hb
  refine ⟨?_, ?_, ?_, ?_, by decide⟩ <;>
    simp [ifaceDraw, ifaceDrawBoundary, ifaceFillColor, shapeAbstractDraw,
      saAddrOfSB, readSA, ha, hb, Res.seq, Except.bind]

/-- Witness for C3 on the concrete two-object heap holding an unwired
ShapeBase (the literal ShapeBase{&ShapeAbstract{}} with the wiring step
skipped). -/
theorem c3_unwired_nil_fault_witness :
    (([Obj.shapeAbstract Iface.nil, Obj.shapeBase (some 0)] : Heap).get? 0 =
        some (Obj.shapeAbstract Iface.nil) ∧
      ([Obj.shapeAbstract Iface.nil, Obj.shapeBase (some 0)] : Heap).get? 1 =
        some (Obj.shapeBase (some 0))) ∧
    (ifaceDraw 0 [Obj.shapeAbstract Iface.nil, Obj.shapeBase (some 0)]
        (Iface.val Tag2.shapeBase 1) = Res.nilFault ∧
      ifaceDraw 0 [Obj.shapeAbstract Iface.nil, Obj.shapeBase (some 0)]
        (Iface.val Tag2.shapeAbstract 0) = Res.nilFault ∧
      ifaceDrawBoundary (0 + 1) [Obj.shapeAbstract Iface.nil, Obj.shapeBase (some 0)]
        (Iface.val Tag2.shapeAbstract 0) = Res.nilFault ∧
      ifaceFillColor (0 + 1) [Obj.shapeAbstract Iface.nil, Obj.shapeBase (some 0)]
        (Iface.val Tag2.shapeAbstract 0) = Res.nilFault ∧
      Res.nilFault ≠ Res.ok ["draw nothing", "-", "fill nothing"]) :=
  ⟨⟨by decide, by decide⟩,
    c3_unwired_nil_fault 0 [Obj.shapeAbstract Iface.nil, Obj.shapeBase (some 0)] 0 1
      (by decide) (by decide)⟩

/-- C4: the two dispatch-emulation strategies are behaviorally equivalent
for the demo — for each of the four variants the composite draw produces
the same token sequence in both programs, and the two drivers produce
identical standard output. -/
theorem c4_variants_equivalent :
    main1Out = main2Out ∧
    shapes2.map (fun s => resTokens (ifaceDraw fuel2 mainHeap2 s)) =
      shapes1.map (fun s => Shape1.draw s s) := by
  constructor
  · decide
  · decide

/-- C5 counterexample: in the explicit-argument variant the
BlueCircleWithText constructor does not delegate to the Circle constructor;
the Circle it embeds is the zero-valued literal, not the instance NewCircle
builds, so the claimed delegation fails there. -/
theorem c5_counterexample : NewBlueCircleWithText1.circle ≠ some NewCircle1 := by
  decide

/-- C5 (amended): in the embedded-interface variant NewBlueCircleWithText
delegates construction to NewCircle — the returned instance embeds, at the
address NewCircle returned, exactly the object NewCircle built — while in
the explicit-argument variant it embeds a zero-valued Circle literal with a
nil *ShapeBase; in both variants the returned instance inherits the
boundary override of Circle (its drawBoundary emits Circle) and the
embedded Circle retains the default fill behavior (fill nothing). -/
theorem c5_delegation_amended :
    (NewBlueCircleWithText2 []).1.get? (NewBlueCircleWithText2 []).2 =
      some (Obj.bct (some (NewCircle2 []).2)) ∧
    (NewBlueCircleWithText2 []).1.get? (NewCircle2 []).2 =
      (NewCircle2 []).1.get? (NewCircle2 []).2 ∧
    NewBlueCircleWithText1 = { circle := some { shapeBase := none } } ∧
    Shape1.drawBoundary (Shape1.bct (some NewBlueCircleWithText1)) = some ["Circle"] ∧
    Shape1.fillColor (Shape1.circle (some NewCircle1)) = some ["fill nothing"] ∧
    ifaceDrawBoundary fuel2 (NewBlueCircleWithText2 []).1
      (Iface.val Tag2.bct (NewBlueCircleWithText2 []).2) = Res.ok ["Circle"] ∧
    ifaceFillColor fuel2 (NewBlueCircleWithText2 []).1
      (Iface.val Tag2.circle (NewCircle2 []).2) = Res.ok ["fill nothing"] := by
  refine ⟨by decide, by decide, by decide, by decide, by decide, by decide, by decide⟩

/-- C6: dispatch through the Shape interface value is the invocation of the
concrete resolution of draw — universally, the interface dispatch of
program 1 equals the concrete-type method call it selects, and for each of
the four constructed instances of both programs the interface invocation
equals the direct concrete invocation. -/
theorem c6_interface_dispatch_equiv :
    (∀ p : Option ShapeBase1, ∀ s : Shape1,
      Shape1.draw (Shape1.base p) s = ShapeBase1.draw p s) ∧
    (∀ p : Option Circle1, ∀ s : Shape1,
      Shape1.draw (Shape1.circle p) s =
        p.bind fun v => ShapeBase1.draw v.shapeBase s) ∧
    (∀ p : Option RedRectangle1, ∀ s : Shape1,
      Shape1.draw (Shape1.redRect p) s =
        p.bind fun v => ShapeBase1.draw v.shapeBase s) ∧
    (∀ p : Option BlueCircleWithText1, ∀ s : Shape1,
      Shape1.draw (Shape1.bct p) s = BlueCircleWithText1.draw p s) ∧
    ifaceDraw fuel2 mainHeap2 (Iface.val Tag2.shapeBase 1) =
      shapeAbstractDraw fuel2 mainHeap2 (Iface.val Tag2.shapeBase 1) ∧
    ifaceDraw fuel2 mainHeap2 (Iface.val Tag2.circle 4) =
      shapeAbstractDraw fuel2 mainHeap2 (Iface.val Tag2.circle 4) ∧
    ifaceDraw fuel2 mainHeap2 (Iface.val Tag2.redRect 7) =
      shapeAbstractDraw fuel2 mainHeap2 (Iface.val Tag2.redRect 7) ∧
    ifaceDraw fuel2 mainHeap2 (Iface.val Tag2.bct 11) =
      (shapeAbstractDraw fuel2 mainHeap2 (Iface.val Tag2.bct 11)).seq
        (Res.ok ["-TextAnnotation"]) := by
  refine ⟨fun p s => rfl, fun p s => ?_, fun p s => ?_, fun p s => rfl,
    by decide, by decide, by decide, by decide⟩
  · cases p <;> rfl
  · cases p <;> rfl

/-- C7: the full output of the composite draw of BlueCircleWithText, in
both programs, is the completed output of the composite draw of the named
predecessor followed by the extension token, and it contains Circle before
-TextAnnotation. -/
theorem c7_delegation_order :
    Shape1.draw (Shape1.bct (some NewBlueCircleWithText1))
        (Shape1.bct (some NewBlueCircleWithText1)) =
      some (["Circle"] ++ ["-", "Blue"] ++ ["-TextAnnotation"]) ∧
    Shape1.draw (Shape1.bct (some NewBlueCircleWithText1))
        (Shape1.bct (some NewBlueCircleWithText1)) =
      (ShapeBase1.draw none (Shape1.bct (some NewBlueCircleWithText1))).map
        (fun l => l ++ ["-TextAnnotation"]) ∧
    Option.map String.join
        (Shape1.draw (Shape1.bct (some NewBlueCircleWithText1))
          (Shape1.bct (some NewBlueCircleWithText1))) =
      some ("Circle" ++ "-Blue" ++ "-TextAnnotation") ∧
    ifaceDraw fuel2 mainHeap2 (Iface.val Tag2.bct 11) =
      Res.ok (["Circle"] ++ ["-", "Blue"] ++ ["-TextAnnotation"]) ∧
    ifaceDraw fuel2 mainHeap2 (Iface.val Tag2.bct 11) =
      (shapeAbstractDraw fuel2 mainHeap2 (Iface.val Tag2.bct 11)).seq
        (Res.ok ["-TextAnnotation"]) := by
  refine ⟨by decide, by decide, by decide, by decide, by decide⟩

/-- C8: invoking the composite draw twice in succession on the same
instance yields the same output twice — no invocation mutates the instance
(the method bodies contain no assignment, so evaluation reads the heap and
the instance unchanged) — universally in both programs. -/
theorem c8_draw_idempotent :
    (∀ s : Shape1,
      ((Shape1.draw s s).bind fun a => (Shape1.draw s s).bind fun b => some (a ++ b)) =
        (Shape1.draw s s).map fun l => l ++ l) ∧
    (∀ fuel : Nat, ∀ hp : Heap, ∀ s : Iface,
      Res.seq (ifaceDraw fuel hp s) (ifaceDraw fuel hp s) =
        match ifaceDraw fuel hp s with
        | Res.ok l => Res.ok (l ++ l)
        | e => e) ∧
    shapes1.map (fun s => Shape1.draw s s) =
      [some ["draw nothing", "-", "fill nothing"], some ["Circle", "-", "fill nothing"],
        some ["Rectangle", "-", "Red"], some ["Circle", "-", "Blue", "-TextAnnotation"]] ∧
    shapes2.map (fun s => ifaceDraw fuel2 mainHeap2 s) =
      [Res.ok ["draw nothing", "-", "fill nothing"], Res.ok ["Circle", "-", "fill nothing"],
        Res.ok ["Rectangle", "-", "Red"], Res.ok ["Circle", "-", "Blue", "-TextAnnotation"]] := by
  refine ⟨fun s => ?_, fun fuel hp s => ?_, by decide, by decide⟩
  · cases hd : Shape1.draw s s <;> simp [hd]
  · cases hd : ifaceDraw fuel hp s <;> simp [hd, Res.seq]

/-- C9: in the embedded-interface variant, each of the four constructors
returns an instance whose innermost embedded Shape interface field (reached
by the promoted pointer chain) holds the returned instance itself, the
outer assignment having overwritten the one of the inner constructor it
called; the dispatch functions take the heap read-only, mirroring the
assignment-free method bodies, so no operation changes the field. -/
theorem c9_self_reference_invariant :
    (saAddrOfSB (NewShapeBase2 []).1 (NewShapeBase2 []).2 = Except.ok 0 ∧
      (NewShapeBase2 []).1.get? 0 =
        some (Obj.shapeAbstract (Iface.val Tag2.shapeBase (NewShapeBase2 []).2))) ∧
    (saAddrOfCircle (NewCircle2 []).1 (NewCircle2 []).2 = Except.ok 0 ∧
      (NewCircle2 []).1.get? 0 =
        some (Obj.shapeAbstract (Iface.val Tag2.circle (NewCircle2 []).2))) ∧
    (saAddrOfRR (NewRedRectangle2 []).1 (NewRedRectangle2 []).2 = Except.ok 0 ∧
      (NewRedRectangle2 []).1.get? 0 =
        some (Obj.shapeAbstract (Iface.val Tag2.redRect (NewRedRectangle2 []).2))) ∧
    (saAddrOfBct (NewBlueCircleWithText2 []).1 (NewBlueCircleWithText2 []).2 = Except.ok 0 ∧
      (NewBlueCircleWithText2 []).1.get? 0 =
        some (Obj.shapeAbstract (Iface.val Tag2.bct (NewBlueCircleWithText2 []).2))) ∧
    mainHeap2.get? 0 = some (Obj.shapeAbstract (Iface.val Tag2.shapeBase 1)) ∧
    mainHeap2.get? 2 = some (Obj.shapeAbstract (Iface.val Tag2.circle 4)) ∧
    mainHeap2.get? 5 = some (Obj.shapeAbstract (Iface.val Tag2.redRect 7)) ∧
    mainHeap2.get? 8 = some (Obj.shapeAbstract (Iface.val Tag2.bct 11)) := by
  refine ⟨⟨by decide, by decide⟩, ⟨by decide, by decide⟩, ⟨by decide, by decide⟩,
    ⟨by decide, by decide⟩, by decide, by decide, by decide, by decide⟩

/-- C10: in the explicit-argument variant, the constructed
BlueCircleWithText embeds a Circle whose *ShapeBase pointer is nil, yet
every Shape operation on it succeeds — the composite draw yields
Circle-Blue-TextAnnotation and no fault — because the base composite draw
never uses its receiver and the primitive operations resolve to the
overrides of Circle and BlueCircleWithText. -/
theorem c10_nil_embedded_safe :
    NewBlueCircleWithText1.circle = some { shapeBase := none } ∧
    (∀ p q : Option ShapeBase1, ∀ s : Shape1, ShapeBase1.draw p s = ShapeBase1.draw q s) ∧
    Shape1.draw (Shape1.bct (some NewBlueCircleWithText1))
        (Shape1.bct (some NewBlueCircleWithText1)) =
      some ["Circle", "-", "Blue", "-TextAnnotation"] ∧
    Shape1.drawBoundary (Shape1.bct (some NewBlueCircleWithText1)) = some ["Circle"] ∧
    Shape1.fillColor (Shape1.bct (some NewBlueCircleWithText1)) = some ["Blue"] := by
  refine ⟨by decide, fun p q s => rfl, by decide, by decide, by decide⟩
